import Mathlib

/-!
Verification of the optimizer registry, train/test splitter, DSPy adapter
prompt extraction, metric functions, validation, and judge batch evaluation
of the backend (`app/services/optimizer/registry.py`,
`app/services/optimizer/dspy/adapters.py`, `app/services/optimizer/dspy/factory.py`,
`app/services/optimizer/opik/factory.py`, `app/services/judge.py`,
`app/schemas.py`).

Python strings are modelled as Lean `String`, Python lists as `List`,
`None`-able fields as `Option`, floats (the train ratio, metric scores) as
exact rationals `ℚ`, and exceptions as `Except String`.  `random.shuffle`
is modelled by an explicit `shuffle` function parameter together with the
hypothesis that it permutes its input.  `async` functions are modelled as
pure functions of their inputs; the scheduling structure of
`asyncio.gather` is modelled explicitly where a claim is about concurrency.
-/

/-! ## String containment machinery

Python's `in` operator on strings (substring test) and the f-string
fragments used by the code are modelled with the following executable
definitions. `apos` is the single-quote character used by Python `repr`.
-/

/-- The single-quote character, as a one-character string. -/
def apos : String := String.singleton (Char.ofNat 39)

/-- Prefix test: `startsWithChars hay needle` is true iff `needle` is a prefix of `hay`. -/
def startsWithChars (hay needle : List Char) : Bool :=
  match needle with
  | [] => true
  | n :: ns =>
    match hay with
    | [] => false
    | h :: hs => h == n && startsWithChars hs ns

/-- Substring test: `hasSubChars hay needle` is true iff `needle` occurs contiguously in `hay`.
Models Python's `needle in hay` on strings. -/
def hasSubChars : List Char → List Char → Bool
  | [], needle => needle.isEmpty
  | h :: hs, needle => startsWithChars (h :: hs) needle || hasSubChars hs needle

/-- Python's substring test `needle in hay`, at the `String` level. -/
def strContains (hay needle : String) : Bool :=
  hasSubChars hay.data needle.data

/-! ## Data model (`app/schemas.py`, `app/services/optimizer/base.py`) -/

/-- Model of `TestCase` from `app/schemas.py`: a labeled input for the judge.
`expected_verdict` holds the string PASS or FAIL; `split` is
`none` when the case has not yet been assigned to a partition. -/
structure TestCase where
  id : String
  input_text : String
  expected_verdict : String
  reasoning : String
  verified : Bool
  split : Option String
deriving DecidableEq, Repr

/-- Model of `EvaluationResult` from `app/schemas.py`. -/
structure EvaluationResult where
  test_case_id : String
  actual_verdict : String
  reasoning : String
  correct : Bool
deriving DecidableEq, Repr

/-- Model of `OptimizationConfig` from `app/services/optimizer/base.py`. -/
structure OptimizationConfig where
  model : String
  n_threads : Nat
  seed : Nat
  verbose : Nat
deriving DecidableEq, Repr

/-- Model of `OptimizeResponse` from `app/schemas.py`. -/
structure OptimizeResponse where
  optimized_prompt : String
  modification_notes : String
  train_cases : List TestCase
  test_cases : List TestCase
deriving DecidableEq, Repr

/-! ## Splitter (`split_test_cases`, registry.py lines 17-38) -/

/-- The split index `int(len(shuffled) * train_ratio)` from registry.py line 33.
The Python float ratio is modelled as an exact rational; for `0 ≤ ratio` the
Python truncation `int(·)` is the floor, computed here with kernel-friendly
natural division `(n * ratio.num) / ratio.den`.  (Negative ratios, which the
API schema excludes — `train_ratio` is constrained to `[0.1, 0.9]` — are not
modelled.) -/
def split_idx (n : Nat) (ratio : ℚ) : Nat :=
  (n * ratio.num.toNat) / ratio.den

/-- The default `train_ratio = 0.7` (registry.py line 19), as the exact
rational 7/10, given in lowest terms so that the kernel can evaluate it. -/
def default_train_ratio : ℚ := ⟨7, 10, by decide, by decide⟩

/-- Model of `split_test_cases` from registry.py lines 17-38.  `shuffle` stands for the
permutation that `random.shuffle` applies to the copied list; theorems
assume `(shuffle cases).Perm cases`.  Each selected case is copied with its
`split` field updated, exactly as `tc.model_copy(update={...})` does. -/
def split_test_cases (shuffle : List TestCase → List TestCase)
    (test_cases : List TestCase) (train_ratio : ℚ := default_train_ratio) :
    List TestCase × List TestCase :=
  let shuffled := shuffle test_cases
  let idx := split_idx shuffled.length train_ratio
  ((shuffled.take idx).map (fun tc => { tc with split := some "train" }),
   (shuffled.drop idx).map (fun tc => { tc with split := some "test" }))

/-! ## Factories and validation (dspy/factory.py, opik/factory.py, registry.py) -/

/-- Python `repr` of a string as it appears inside `str(list)`. -/
def pyStrRepr (s : String) : String := apos ++ s ++ apos

/-- Helper for `pyListRepr`: comma-separated single-quoted items. -/
def pyListReprAux : List String → String
  | [] => ""
  | [s] => pyStrRepr s
  | s :: rest => pyStrRepr s ++ ", " ++ pyListReprAux rest

/-- Python's `str` of a list of strings, e.g. `['a', 'b']`; used by the
factories' and registry's f-string error messages. -/
def pyListRepr (xs : List String) : String := "[" ++ pyListReprAux xs ++ "]"

/-- Keys of `DSPyOptimizerFactory.OPTIMIZER_MAP`, in declaration order
(dspy/factory.py lines 14-18). -/
def dspy_optimizer_types : List String := ["bootstrap_fewshot", "miprov2", "copro"]

/-- Keys of `OpikOptimizerFactory.OPTIMIZER_MAP`, in declaration order
(opik/factory.py lines 17-24). -/
def opik_optimizer_types : List String :=
  ["evolutionary", "fewshot_bayesian", "metaprompt", "hierarchical_reflective",
   "gepa", "parameter"]

/-- The registry's `_factories` map (registry.py lines 45-48), exposed as the
optimizer-type list of each registered framework (`get_optimizer_types`);
`none` for an unregistered framework name. -/
def factory_optimizer_types (framework : String) : Option (List String) :=
  if framework = "dspy" then some dspy_optimizer_types
  else if framework = "opik" then some opik_optimizer_types
  else none

/-- Model of `OptimizerRegistry.validate_optimizer` (registry.py lines 60-74): raises
`ValueError` (modelled as `Except.error` carrying the message) for an unknown
framework or an optimizer type not offered by the framework. -/
def validate_optimizer (framework optimizer_type : String) : Except String Unit :=
  match factory_optimizer_types framework with
  | none => .error ("Unknown framework: " ++ framework)
  | some available =>
    if optimizer_type ∈ available then .ok ()
    else .error ("Optimizer " ++ pyStrRepr optimizer_type ++ " not available in " ++
      framework ++ ". Available: " ++ pyListRepr available)

/-! ## Registry optimize (registry.py lines 76-134) -/

/-- The adapter's `optimize` coroutine, abstracted: given the current prompt,
the train partition and the config it either returns
`(optimized_prompt, modification_notes)` or raises (modelled as
`Except.error` carrying `str(e)`). -/
def AdapterFun : Type :=
  String → List TestCase → OptimizationConfig → Except String (String × String)

/-- The split determination of `OptimizerRegistry.optimize`
(registry.py lines 89-95): if any case carries a split tag, partition by tag;
otherwise auto-split with the default ratio. -/
def computePartition (shuffle : List TestCase → List TestCase)
    (test_cases : List TestCase) : List TestCase × List TestCase :=
  let has_split := test_cases.any fun tc => tc.split.isSome
  if !has_split then split_test_cases shuffle test_cases
  else
    (test_cases.filter (fun tc => tc.split == some "train"),
     test_cases.filter (fun tc => tc.split == some "test"))

/-- Model of `OptimizerRegistry.optimize` (registry.py lines 76-134).  `adapter` stands
for the adapter instance the factory constructs for the validated
`(framework, optimizer_type)` pair, and `shuffle` for the permutation
`random.shuffle` applies during an auto-split.  The `results` argument is
accepted for interface compatibility (the Python parameter carries a
`noqa: ARG002` marker) and never read. -/
def OptimizerRegistry.optimize (adapter : AdapterFun)
    (shuffle : List TestCase → List TestCase)
    (current_prompt : String) (test_cases : List TestCase)
    (results : List EvaluationResult)
    (framework optimizer_type model : String) : Except String OptimizeResponse :=
  match validate_optimizer framework optimizer_type with
  | .error e => .error e
  | .ok _ =>
    let parts := computePartition shuffle test_cases
    let train_cases := parts.1
    let test_split := parts.2
    if train_cases.isEmpty then
      .ok ⟨current_prompt, "No training cases available for optimization",
        train_cases, test_split⟩
    else
      let config : OptimizationConfig := ⟨model, 8, 42, 0⟩
      match adapter current_prompt train_cases config with
      | .ok pr => .ok ⟨pr.1, pr.2, train_cases, test_split⟩
      | .error e => .ok ⟨current_prompt, "Optimization failed: " ++ e,
          train_cases, test_split⟩

/-! ## DSPy adapter prompt extraction (dspy/adapters.py lines 113-167) -/

/-- A few-shot demo attached to the optimized predictor.  Fields are optional
because the extraction code reads them with `getattr(demo, field, "N/A")`. -/
structure Demo where
  input_text : Option String
  verdict : Option String
  reasoning : Option String
deriving DecidableEq, Repr

/-- One formatted example block (dspy/adapters.py lines 146-151). -/
def fmtDemo (i : Nat) (d : Demo) : String :=
  "\n### Example " ++ toString i ++ ":\nInput: " ++ d.input_text.getD "N/A" ++
  "\nVerdict: " ++ d.verdict.getD "N/A" ++
  "\nReasoning: " ++ d.reasoning.getD "N/A"

/-- The parts appended for a non-empty demo list (dspy/adapters.py
lines 141-151): the Examples header followed by one block per demo,
numbered from 1. -/
def demoSection (demos : List Demo) : List String :=
  "\n\n## Examples:" :: (demos.enum.map fun p => fmtDemo (p.1 + 1) p.2)

/-- Model of `BaseDSPyAdapter._extract_optimized_prompt` (dspy/adapters.py
lines 113-167).  `instructions` is `predictor.signature.instructions` when the
attribute chain exists (`none` when absent or `None`); the Python truthiness
guard additionally rejects the empty string.  `demos` is `predictor.demos`
(`none`/missing collapsed to `[]`, which Python treats identically as falsy).
Returns `(optimized_prompt, modification_notes)`. -/
def extract_optimized_prompt (name : String) (instructions : Option String)
    (demos : List Demo) (original_prompt : String) : String × String :=
  let instrPair : List String × List String :=
    match instructions with
    | some s =>
      if s = "" then ([], [])
      else ([s], ["Updated instructions from optimizer"])
    | none => ([], [])
  let demoPair : List String × List String :=
    if demos.isEmpty then ([], [])
    else (demoSection demos,
      ["Added " ++ toString demos.length ++ " fewshot examples"])
  let parts := instrPair.1 ++ demoPair.1
  let notes := instrPair.2 ++ demoPair.2
  if parts.isEmpty then
    (original_prompt, "Optimizer (" ++ name ++ ") ran but made no changes")
  else
    let joined := String.intercalate "\n" parts
    let optimized :=
      if strContains (pyListRepr notes) "Updated instructions" then joined
      else original_prompt ++ "\n" ++ joined
    (optimized, String.intercalate "; " notes)

/-! ## Metric functions (`create_metric`, dspy/adapters.py lines 55-88) -/

/-- The scalar metric returned by `create_metric(with_feedback=False)`:
compares `example.expected_verdict` with `pred.verdict`.  The float score is
modelled as an exact rational. -/
def metric (expected actual : String) : ℚ :=
  if expected = actual then 1 else 0

/-- The feedback metric returned by `create_metric(with_feedback=True)`:
returns `(score, feedback)` as in dspy/adapters.py lines 72-86. -/
def metric_with_feedback (expected actual input_text reasoning : String) :
    ℚ × String :=
  if expected = actual then (1, "Correct verdict")
  else
    (0, "Expected " ++ expected ++ " but got " ++ actual ++ ". Input: " ++
      apos ++ input_text.take 100 ++ "..." ++ apos ++
      " Ground truth reasoning: " ++ reasoning)

/-! ## Judge batch evaluation (judge.py lines 69-75) -/

/-- Model of `LLMJudge.evaluate_batch` (judge.py lines 69-75): one
`evaluate_single` coroutine per case, gathered with `asyncio.gather`, whose
result list is in input order.  `evaluate_single` abstracts the per-case LLM
evaluation (judge.py lines 15-67), which already catches its own errors and
always produces an `EvaluationResult`. -/
def LLMJudge.evaluate_batch (evaluate_single : TestCase → EvaluationResult)
    (test_cases : List TestCase) : List EvaluationResult :=
  test_cases.map evaluate_single

/-- Scheduling model of the batch: `evaluate_batch` creates one task per case
(line 72) and starts them all at once via `asyncio.gather(*tasks)` (line 73);
each `evaluate_single` immediately awaits its `litellm.acompletion` request,
and judge.py contains no semaphore or other limiter, so the number of
simultaneously in-flight LLM requests equals the number of input cases. -/
def LLMJudge.batch_in_flight (test_cases : List TestCase) : Nat :=
  test_cases.length

/-! ## Concrete sample data used by witnesses and counterexamples -/

/-- A sample untagged test case. -/
def sampleCase (i : Nat) : TestCase :=
  ⟨"case-" ++ toString i, "input-" ++ toString i, "PASS", "because", false, none⟩

/-- A sample case already tagged train. -/
def taggedTrain : TestCase := { sampleCase 1 with split := some "train" }

/-- A sample case already tagged test. -/
def taggedTest : TestCase := { sampleCase 2 with split := some "test" }

/-- Ten untagged cases with distinct ids. -/
def tenCases : List TestCase := (List.range 10).map sampleCase

/-- Eleven untagged cases. -/
def elevenCases : List TestCase := (List.range 11).map sampleCase

/-- A sample demo for the extraction counterexample. -/
def demoA : Demo := ⟨some "demo input", some "PASS", some "demo reasoning"⟩

/-- A trivial per-case evaluator used by the judge witness. -/
def dummyEval (tc : TestCase) : EvaluationResult :=
  ⟨tc.id, "PASS", "ok", true⟩

/-! ## Helper lemmas -/

theorem str_data_append (a b : String) : (a ++ b).data = a.data ++ b.data := rfl

theorem startsWithChars_append (m r : List Char) :
    startsWithChars (m ++ r) m = true := by
  induction m with
  | nil => simp [startsWithChars]
  | cons c cs ih => simp [startsWithChars, ih]

theorem hasSubChars_split (l m r : List Char) :
    hasSubChars (l ++ (m ++ r)) m = true := by
  induction l with
  | nil =>
    rw [List.nil_append]
    cases m with
    | nil =>
      cases r with
      | nil => rfl
      | cons c cs => simp [hasSubChars, startsWithChars]
    | cons x xs =>
      rw [List.cons_append, hasSubChars, ← List.cons_append,
        startsWithChars_append, Bool.true_or]
  | cons c cs ih =>
    rw [List.cons_append, hasSubChars, ih, Bool.or_true]

theorem strContains_intro (hay needle : String) (l r : List Char)
    (h : hay.data = l ++ (needle.data ++ r)) : strContains hay needle = true := by
  unfold strContains
  rw [h]
  exact hasSubChars_split l needle.data r

/-- Bridge between the kernel-friendly `split_idx` and the mathematical floor:
for a nonnegative ratio, `split_idx n ratio` is `⌊n * ratio⌋`. -/
theorem split_idx_eq_floor (n : Nat) (ratio : ℚ) (h : 0 ≤ ratio) :
    (split_idx n ratio : ℤ) = ⌊(n : ℚ) * ratio⌋ := by
  have hnum : (ratio.num.toNat : ℤ) = ratio.num :=
    Int.toNat_of_nonneg (Rat.num_nonneg.mpr h)
  have hcast : (n : ℚ) * ratio =
      ((n * ratio.num.toNat : ℕ) : ℚ) / ((ratio.den : ℕ) : ℚ) := by
    conv_lhs => rw [← Rat.num_div_den ratio]
    rw [← mul_div_assoc]
    congr 1
    push_cast
    have h2 : ((ratio.num.toNat : ℕ) : ℚ) = ((ratio.num : ℤ) : ℚ) := by
      exact_mod_cast hnum
    rw [h2]
  rw [hcast, Rat.floor_natCast_div_natCast]
  unfold split_idx
  exact_mod_cast rfl

/-- For a ratio at most 1, the split index never exceeds the list length. -/
theorem split_idx_le (n : Nat) (ratio : ℚ) (h0 : 0 ≤ ratio) (h1 : ratio ≤ 1) :
    split_idx n ratio ≤ n := by
  have hf : (split_idx n ratio : ℤ) = ⌊(n : ℚ) * ratio⌋ := split_idx_eq_floor n ratio h0
  have hle : ((n : ℚ) * ratio) ≤ (n : ℚ) := by
    calc (n : ℚ) * ratio ≤ (n : ℚ) * 1 :=
          mul_le_mul_of_nonneg_left h1 (by positivity)
      _ = (n : ℚ) := mul_one _
  have : ⌊(n : ℚ) * ratio⌋ ≤ ⌊(n : ℚ)⌋ := Int.floor_le_floor hle
  rw [Int.floor_natCast] at this
  exact_mod_cast hf ▸ this

/-! ## Claim C5: split counts -/

/-- Claim C5: for every case collection and train ratio (a ratio lies in
`[0, 1]`; the API schema further restricts it to `[0.1, 0.9]`), the split's
partition sizes satisfy `len(train) + len(test) = len(cases)` and
`len(train) = ⌊len(cases) * ratio⌋` exactly; in particular an empty input
yields two empty outputs, 10 cases at the default ratio 0.7 yield 7 train and
3 test, and a single case at the default ratio yields 0 train and 1 test
(round-down). -/
theorem C5_split_counts (shuffle : List TestCase → List TestCase)
    (cases : List TestCase) (ratio : ℚ)
    (hperm : (shuffle cases).Perm cases) (h0 : 0 ≤ ratio) (h1 : ratio ≤ 1) :
    ((split_test_cases shuffle cases ratio).1.length +
        (split_test_cases shuffle cases ratio).2.length = cases.length) ∧
    (((split_test_cases shuffle cases ratio).1.length : ℤ) =
        ⌊(cases.length : ℚ) * ratio⌋) ∧
    (cases = [] → split_test_cases shuffle cases ratio = ([], [])) ∧
    (cases.length = 10 →
      (split_test_cases shuffle cases).1.length = 7 ∧
      (split_test_cases shuffle cases).2.length = 3) ∧
    (cases.length = 1 →
      (split_test_cases shuffle cases).1 = [] ∧
      (split_test_cases shuffle cases).2.length = 1) := by
  have hlen : (shuffle cases).length = cases.length := hperm.length_eq
  have hidxle : split_idx (shuffle cases).length ratio ≤ (shuffle cases).length :=
    split_idx_le _ _ h0 h1
  refine ⟨?_, ?_, ?_, ?_, ?_⟩
  · simp only [split_test_cases, List.length_map, List.length_take, List.length_drop]
    omega
  · simp only [split_test_cases, List.length_map, List.length_take]
    rw [Nat.min_eq_left hidxle, hlen]
    exact split_idx_eq_floor cases.length ratio h0
  · intro h
    subst h
    have hnil : shuffle [] = [] := hperm.eq_nil
    simp [split_test_cases, split_idx, hnil]
  · intro h10
    have h7 : split_idx 10 default_train_ratio = 7 := by decide
    constructor
    · simp only [split_test_cases, List.length_map, List.length_take, hlen, h10, h7]
      omega
    · simp only [split_test_cases, List.length_map, List.length_drop, hlen, h10, h7]
  · intro h1c
    have hz : split_idx 1 default_train_ratio = 0 := by decide
    constructor
    · simp only [split_test_cases, hlen, h1c, hz, List.take_zero, List.map_nil]
    · simp only [split_test_cases, List.length_map, List.length_drop, hlen, h1c, hz]

/-- Witness for C5: ten concrete cases at the default ratio. -/
theorem C5_witness :
    ((split_test_cases (fun l => l) tenCases default_train_ratio).1.length +
        (split_test_cases (fun l => l) tenCases default_train_ratio).2.length =
        tenCases.length) ∧
    (split_test_cases (fun l => l) tenCases).1.length = 7 ∧
    (split_test_cases (fun l => l) tenCases).2.length = 3 := by
  have h := C5_split_counts (fun l => l) tenCases default_train_ratio
    (List.Perm.refl _) (by decide) (by decide)
  exact ⟨h.1, (h.2.2.2.1 (by decide)).1, (h.2.2.2.1 (by decide)).2⟩

/-! ## Claim C6: split preserves identities -/

/-- Claim C6: splitting never drops or duplicates a case identity — for a
collection with pairwise-distinct ids (the data model generates unique ids),
every input case's id appears exactly once across the two output partitions —
and each output case is a copy of an input case with only the `split` tag
changed, the originals untouched. -/
theorem C6_split_id_partition (shuffle : List TestCase → List TestCase)
    (cases : List TestCase) (ratio : ℚ)
    (hperm : (shuffle cases).Perm cases)
    (hnodup : (cases.map TestCase.id).Nodup) :
    (∀ c ∈ cases,
       (((split_test_cases shuffle cases ratio).1 ++
           (split_test_cases shuffle cases ratio).2).map TestCase.id).count c.id
         = 1) ∧
    (∀ t ∈ (split_test_cases shuffle cases ratio).1,
       ∃ c ∈ cases, t = { c with split := some "train" }) ∧
    (∀ t ∈ (split_test_cases shuffle cases ratio).2,
       ∃ c ∈ cases, t = { c with split := some "test" }) := by
  have hids : ((split_test_cases shuffle cases ratio).1 ++
      (split_test_cases shuffle cases ratio).2).map TestCase.id =
      (shuffle cases).map TestCase.id := by
    simp only [split_test_cases, List.map_append, List.map_map]
    have h1 : (TestCase.id ∘ fun tc => { tc with split := some "train" }) =
        TestCase.id := rfl
    have h2 : (TestCase.id ∘ fun tc => { tc with split := some "test" }) =
        TestCase.id := rfl
    rw [h1, h2, ← List.map_append, List.take_append_drop]
  have hperm_ids : ((shuffle cases).map TestCase.id).Perm (cases.map TestCase.id) :=
    hperm.map _
  refine ⟨?_, ?_, ?_⟩
  · intro c hc
    rw [hids, hperm_ids.count_eq]
    exact List.count_eq_one_of_mem hnodup (List.mem_map_of_mem _ hc)
  · intro t ht
    simp only [split_test_cases, List.mem_map] at ht
    obtain ⟨s, hs, rfl⟩ := ht
    exact ⟨s, hperm.mem_iff.mp (List.mem_of_mem_take hs), rfl⟩
  · intro t ht
    simp only [split_test_cases, List.mem_map] at ht
    obtain ⟨s, hs, rfl⟩ := ht
    exact ⟨s, hperm.mem_iff.mp (List.mem_of_mem_drop hs), rfl⟩

/-- Witness for C6: two concrete cases with distinct ids. -/
theorem C6_witness :
    (∀ c ∈ [sampleCase 1, sampleCase 2],
       (((split_test_cases (fun l => l) [sampleCase 1, sampleCase 2]
             default_train_ratio).1 ++
           (split_test_cases (fun l => l) [sampleCase 1, sampleCase 2]
             default_train_ratio).2).map TestCase.id).count c.id = 1) ∧
    (∀ t ∈ (split_test_cases (fun l => l) [sampleCase 1, sampleCase 2]
        default_train_ratio).1,
       ∃ c ∈ [sampleCase 1, sampleCase 2], t = { c with split := some "train" }) ∧
    (∀ t ∈ (split_test_cases (fun l => l) [sampleCase 1, sampleCase 2]
        default_train_ratio).2,
       ∃ c ∈ [sampleCase 1, sampleCase 2], t = { c with split := some "test" }) :=
  C6_split_id_partition (fun l => l) [sampleCase 1, sampleCase 2]
    default_train_ratio (List.Perm.refl _) (by decide)

/-! ## Registry claims -/

/-- Helper: any successful `optimize` response carries exactly the computed
train/test partitions in its last two fields, on every path (short-circuit,
adapter success, adapter failure). -/
theorem optimize_ok_partitions (adapter : AdapterFun)
    (shuffle : List TestCase → List TestCase)
    (current_prompt : String) (cases : List TestCase)
    (results : List EvaluationResult) (framework optimizer_type model : String)
    (resp : OptimizeResponse)
    (hresp : OptimizerRegistry.optimize adapter shuffle current_prompt cases
        results framework optimizer_type model = .ok resp) :
    resp.train_cases = (computePartition shuffle cases).1 ∧
    resp.test_cases = (computePartition shuffle cases).2 := by
  unfold OptimizerRegistry.optimize at hresp
  cases hv : validate_optimizer framework optimizer_type with
  | error e =>
    rw [hv] at hresp
    exact absurd hresp (by simp)
  | ok u =>
    rw [hv] at hresp
    by_cases he : (computePartition shuffle cases).1.isEmpty
    · simp only [he, if_true] at hresp
      cases hresp
      exact ⟨rfl, rfl⟩
    · simp only [he, if_false] at hresp
      cases ha : adapter current_prompt (computePartition shuffle cases).1
          ⟨model, 8, 42, 0⟩ with
      | ok pr =>
        rw [ha] at hresp
        cases hresp
        exact ⟨rfl, rfl⟩
      | error e =>
        rw [ha] at hresp
        cases hresp
        exact ⟨rfl, rfl⟩

/-- Claim C3: with a valid (framework, optimizer type) pair and an empty
resulting train partition, `optimize` returns the original prompt unchanged
with the no-training-data note and the (possibly all-test) split, and no
adapter is invoked: the result is the same for every adapter. -/
theorem C3_empty_train_short_circuit (adapter : AdapterFun)
    (shuffle : List TestCase → List TestCase)
    (current_prompt : String) (cases : List TestCase)
    (results : List EvaluationResult) (framework optimizer_type model : String)
    (hvalid : validate_optimizer framework optimizer_type = .ok ())
    (hempty : (computePartition shuffle cases).1 = []) :
    (OptimizerRegistry.optimize adapter shuffle current_prompt cases results
        framework optimizer_type model =
      .ok ⟨current_prompt, "No training cases available for optimization", [],
        (computePartition shuffle cases).2⟩) ∧
    (∀ adapter2 : AdapterFun,
      OptimizerRegistry.optimize adapter2 shuffle current_prompt cases results
          framework optimizer_type model =
        OptimizerRegistry.optimize adapter shuffle current_prompt cases results
          framework optimizer_type model) := by
  have heval : ∀ a : AdapterFun,
      OptimizerRegistry.optimize a shuffle current_prompt cases results
          framework optimizer_type model =
        .ok ⟨current_prompt, "No training cases available for optimization", [],
          (computePartition shuffle cases).2⟩ := by
    intro a
    unfold OptimizerRegistry.optimize
    rw [hvalid]
    simp [hempty]
  exact ⟨heval adapter, fun a2 => (heval a2).trans (heval adapter).symm⟩

/-- Witness for C3: a collection holding a single test-tagged case has an
empty train partition; a would-be adapter is never consulted. -/
theorem C3_witness :
    OptimizerRegistry.optimize (fun _ _ _ => .ok ("newp", "notes")) (fun l => l)
        "PROMPT" [taggedTest] [] "dspy" "bootstrap_fewshot" "gpt-4o" =
      .ok ⟨"PROMPT", "No training cases available for optimization", [],
        [taggedTest]⟩ := by
  have h := (C3_empty_train_short_circuit (fun _ _ _ => .ok ("newp", "notes"))
    (fun l => l) "PROMPT" [taggedTest] [] "dspy" "bootstrap_fewshot" "gpt-4o"
    rfl rfl).1
  exact h.trans rfl

/-- Claim C9: the `results` argument is never read by `optimize`: two calls
differing only in `results` return identical responses (and in particular
hand the adapter the same train partition). -/
theorem C9_results_noninterference (adapter : AdapterFun)
    (shuffle : List TestCase → List TestCase)
    (current_prompt : String) (cases : List TestCase)
    (results1 results2 : List EvaluationResult)
    (framework optimizer_type model : String) :
    OptimizerRegistry.optimize adapter shuffle current_prompt cases results1
        framework optimizer_type model =
      OptimizerRegistry.optimize adapter shuffle current_prompt cases results2
        framework optimizer_type model := rfl

/-- Claim C10: when some cases carry a split tag, the tag-partition branch is
taken and any untagged case lands in neither returned partition. -/
theorem C10_untagged_excluded (adapter : AdapterFun)
    (shuffle : List TestCase → List TestCase)
    (current_prompt : String) (cases : List TestCase)
    (results : List EvaluationResult) (framework optimizer_type model : String)
    (c : TestCase) (hc : c ∈ cases) (hnone : c.split = none)
    (hsome : cases.any (fun tc => tc.split.isSome) = true)
    (resp : OptimizeResponse)
    (hresp : OptimizerRegistry.optimize adapter shuffle current_prompt cases
        results framework optimizer_type model = .ok resp) :
    c ∉ resp.train_cases ∧ c ∉ resp.test_cases := by
  obtain ⟨htr, hte⟩ := optimize_ok_partitions adapter shuffle current_prompt cases
    results framework optimizer_type model resp hresp
  have hpart : computePartition shuffle cases =
      (cases.filter (fun tc => tc.split == some "train"),
       cases.filter (fun tc => tc.split == some "test")) := by
    unfold computePartition
    simp [hsome]
  constructor
  · rw [htr, hpart]
    intro hmem
    have h2 := (List.mem_filter.mp hmem).2
    rw [hnone] at h2
    simp at h2
  · rw [hte, hpart]
    intro hmem
    have h2 := (List.mem_filter.mp hmem).2
    rw [hnone] at h2
    simp at h2

/-- Witness for C10: an untagged case alongside a train-tagged one is excluded
from both returned partitions. -/
theorem C10_witness :
    sampleCase 3 ∉
      (OptimizeResponse.mk "newp" "notes" [taggedTrain] []).train_cases ∧
    sampleCase 3 ∉
      (OptimizeResponse.mk "newp" "notes" [taggedTrain] []).test_cases :=
  C10_untagged_excluded (fun _ _ _ => .ok ("newp", "notes")) (fun l => l)
    "PROMPT" [sampleCase 3, taggedTrain] [] "dspy" "copro" "gpt-4o"
    (sampleCase 3) (by decide) rfl rfl
    ⟨"newp", "notes", [taggedTrain], []⟩ rfl

/-- Helper: a prefix of a successful match extends to the right. -/
theorem startsWithChars_extend (a b m : List Char)
    (h : startsWithChars a m = true) : startsWithChars (a ++ b) m = true := by
  induction m generalizing a with
  | nil => simp [startsWithChars]
  | cons n ns ih =>
    cases a with
    | nil => simp [startsWithChars] at h
    | cons x xs =>
      simp only [startsWithChars, Bool.and_eq_true] at h
      simp only [List.cons_append, startsWithChars, Bool.and_eq_true]
      exact ⟨h.1, ih xs h.2⟩

/-- Helper: the empty needle occurs in every haystack. -/
theorem hasSubChars_nil_needle (x : List Char) : hasSubChars x [] = true := by
  cases x <;> simp [hasSubChars, startsWithChars]

/-- Helper: an occurrence survives appending on the right. -/
theorem hasSubChars_append_right (a b m : List Char)
    (h : hasSubChars a m = true) : hasSubChars (a ++ b) m = true := by
  induction a with
  | nil =>
    simp only [hasSubChars] at h
    have hm : m = [] := by
      cases m with
      | nil => rfl
      | cons x xs => simp [List.isEmpty] at h
    rw [hm, List.nil_append]
    exact hasSubChars_nil_needle b
  | cons c cs ih =>
    rw [List.cons_append]
    rw [hasSubChars, Bool.or_eq_true] at h
    rw [hasSubChars, Bool.or_eq_true]
    cases h with
    | inl h1 =>
      left
      have := startsWithChars_extend (c :: cs) b m h1
      rwa [List.cons_append] at this
    | inr h2 => exact Or.inr (ih h2)

/-- Helper: an occurrence survives appending on the left. -/
theorem hasSubChars_append_left (a b m : List Char)
    (h : hasSubChars b m = true) : hasSubChars (a ++ b) m = true := by
  induction a with
  | nil => rwa [List.nil_append]
  | cons c cs ih =>
    rw [List.cons_append, hasSubChars, ih, Bool.or_true]

/-- Helper: substring occurrence survives appending a string on the left. -/
theorem strContains_append_left (a b m : String)
    (h : strContains b m = true) : strContains (a ++ b) m = true := by
  unfold strContains at h ⊢
  rw [str_data_append]
  exact hasSubChars_append_left a.data b.data m.data h

/-- Helper: substring occurrence survives appending a string on the right. -/
theorem strContains_append_right (a b m : String)
    (h : strContains a m = true) : strContains (a ++ b) m = true := by
  unfold strContains at h ⊢
  rw [str_data_append]
  exact hasSubChars_append_right a.data b.data m.data h

/-- Claim C2: with a non-empty train partition and passing validation, an
adapter that raises is contained: `optimize` returns (never throws) a
response carrying the original prompt, notes containing the error's
description, and exactly the partitions a successful run would return. -/
theorem C2_adapter_failure_contained (adapter : AdapterFun)
    (shuffle : List TestCase → List TestCase)
    (current_prompt : String) (cases : List TestCase)
    (results : List EvaluationResult) (framework optimizer_type model : String)
    (e : String)
    (hvalid : validate_optimizer framework optimizer_type = .ok ())
    (hne : (computePartition shuffle cases).1.isEmpty = false)
    (hfail : adapter current_prompt (computePartition shuffle cases).1
        ⟨model, 8, 42, 0⟩ = .error e) :
    ∃ resp : OptimizeResponse,
      OptimizerRegistry.optimize adapter shuffle current_prompt cases results
          framework optimizer_type model = .ok resp ∧
      resp.optimized_prompt = current_prompt ∧
      strContains resp.modification_notes e = true ∧
      resp.train_cases = (computePartition shuffle cases).1 ∧
      resp.test_cases = (computePartition shuffle cases).2 ∧
      ∀ p2 n2 : String,
        OptimizerRegistry.optimize (fun _ _ _ => .ok (p2, n2)) shuffle
            current_prompt cases results framework optimizer_type model =
          .ok ⟨p2, n2, resp.train_cases, resp.test_cases⟩ := by
  refine ⟨⟨current_prompt, "Optimization failed: " ++ e,
      (computePartition shuffle cases).1, (computePartition shuffle cases).2⟩,
    ?_, rfl, ?_, rfl, rfl, ?_⟩
  · unfold OptimizerRegistry.optimize
    rw [hvalid]
    simp [hne, hfail]
  · exact strContains_intro _ _ ("Optimization failed: ".data) []
      (by rw [str_data_append, List.append_nil])
  · intro p2 n2
    unfold OptimizerRegistry.optimize
    rw [hvalid]
    simp [hne]

/-- Witness for C2: a concrete raising adapter against one train-tagged and
one test-tagged case. -/
theorem C2_witness :
    ∃ resp : OptimizeResponse,
      OptimizerRegistry.optimize (fun _ _ _ => .error "boom") (fun l => l)
          "PROMPT" [taggedTrain, taggedTest] [] "dspy" "miprov2" "gpt-4o" =
        .ok resp ∧
      resp.optimized_prompt = "PROMPT" ∧
      strContains resp.modification_notes "boom" = true ∧
      resp.train_cases =
        (computePartition (fun l => l) [taggedTrain, taggedTest]).1 ∧
      resp.test_cases =
        (computePartition (fun l => l) [taggedTrain, taggedTest]).2 ∧
      ∀ p2 n2 : String,
        OptimizerRegistry.optimize (fun _ _ _ => .ok (p2, n2)) (fun l => l)
            "PROMPT" [taggedTrain, taggedTest] [] "dspy" "miprov2" "gpt-4o" =
          .ok ⟨p2, n2, resp.train_cases, resp.test_cases⟩ :=
  C2_adapter_failure_contained (fun _ _ _ => .error "boom") (fun l => l)
    "PROMPT" [taggedTrain, taggedTest] [] "dspy" "miprov2" "gpt-4o" "boom"
    rfl rfl rfl

/-- Helper: a member of a string list occurs in the list's Python repr body. -/
theorem contains_pyListReprAux (a : String) :
    ∀ xs : List String, a ∈ xs → strContains (pyListReprAux xs) a = true := by
  intro xs
  induction xs with
  | nil => intro h; exact absurd h (List.not_mem_nil a)
  | cons x rest ih =>
    intro h
    cases rest with
    | nil =>
      have hax : a = x := by simpa using h
      subst hax
      show strContains (pyStrRepr a) a = true
      exact strContains_intro _ _ apos.data apos.data
        (by simp [pyStrRepr, str_data_append])
    | cons y ys =>
      rcases List.mem_cons.mp h with h1 | h2
      · subst h1
        have hbase : strContains (pyStrRepr a) a = true :=
          strContains_intro _ _ apos.data apos.data
            (by simp [pyStrRepr, str_data_append])
        show strContains (pyStrRepr a ++ ", " ++ pyListReprAux (y :: ys)) a = true
        exact strContains_append_right _ _ _ (strContains_append_right _ _ _ hbase)
      · show strContains (pyStrRepr x ++ ", " ++ pyListReprAux (y :: ys)) a = true
        exact strContains_append_left _ _ _ (ih h2)

/-- Helper: a member of a string list occurs in the list's Python repr. -/
theorem contains_pyListRepr (a : String) (xs : List String) (h : a ∈ xs) :
    strContains (pyListRepr xs) a = true := by
  show strContains ("[" ++ pyListReprAux xs ++ "]") a = true
  exact strContains_append_right _ _ _
    (strContains_append_left _ _ _ (contains_pyListReprAux a xs h))

/-- Claim C7 (amended): validation fails before the split step and before any
adapter or engine work — an unknown framework yields an error naming the
offending framework (but listing no alternatives), an optimizer type outside
the framework's published list yields an error naming the offending type and
listing every valid alternative, a type inside the list validates, and a
validation error is returned by `optimize` unchanged for every adapter,
shuffle and case collection. -/
theorem C7_validation (framework optimizer_type : String) :
    (factory_optimizer_types framework = none →
      validate_optimizer framework optimizer_type =
        .error ("Unknown framework: " ++ framework) ∧
      strContains ("Unknown framework: " ++ framework) framework = true) ∧
    (∀ avail, factory_optimizer_types framework = some avail →
      optimizer_type ∉ avail →
      validate_optimizer framework optimizer_type =
        .error ("Optimizer " ++ pyStrRepr optimizer_type ++
          " not available in " ++ framework ++ ". Available: " ++
          pyListRepr avail) ∧
      strContains ("Optimizer " ++ pyStrRepr optimizer_type ++
        " not available in " ++ framework ++ ". Available: " ++
        pyListRepr avail) optimizer_type = true ∧
      (∀ a ∈ avail,
        strContains ("Optimizer " ++ pyStrRepr optimizer_type ++
          " not available in " ++ framework ++ ". Available: " ++
          pyListRepr avail) a = true)) ∧
    (∀ avail, factory_optimizer_types framework = some avail →
      optimizer_type ∈ avail →
      validate_optimizer framework optimizer_type = .ok ()) ∧
    (∀ e, validate_optimizer framework optimizer_type = .error e →
      ∀ (adapter : AdapterFun) (shuffle : List TestCase → List TestCase)
        (current_prompt : String) (cases : List TestCase)
        (results : List EvaluationResult) (model : String),
        OptimizerRegistry.optimize adapter shuffle current_prompt cases results
          framework optimizer_type model = .error e) := by
  refine ⟨?_, ?_, ?_, ?_⟩
  · intro h
    unfold validate_optimizer
    rw [h]
    exact ⟨rfl, strContains_intro _ _ ("Unknown framework: ".data) []
      (by rw [str_data_append, List.append_nil])⟩
  · intro avail ha ht
    have hv : validate_optimizer framework optimizer_type =
        .error ("Optimizer " ++ pyStrRepr optimizer_type ++
          " not available in " ++ framework ++ ". Available: " ++
          pyListRepr avail) := by
      unfold validate_optimizer
      rw [ha]
      dsimp only
      rw [if_neg ht]
    refine ⟨hv, ?_, ?_⟩
    · exact strContains_intro _ _ ("Optimizer " ++ apos).data
        ((apos ++ " not available in " ++ framework ++ ". Available: " ++
          pyListRepr avail).data)
        (by simp [pyStrRepr, str_data_append, List.append_assoc])
    · intro a hmem
      exact strContains_append_left _ _ _ (contains_pyListRepr a avail hmem)
  · intro avail ha ht
    unfold validate_optimizer
    rw [ha]
    dsimp only
    rw [if_pos ht]
  · intro e he adapter shuffle current_prompt cases results model
    unfold OptimizerRegistry.optimize
    rw [he]

/-- Counterexample for C7 as frozen: the unknown-framework error names the
offending framework but does not list the valid alternatives — neither
registered framework name occurs in the message. -/
theorem C7_counterexample :
    validate_optimizer "foo" "bootstrap_fewshot" =
      .error "Unknown framework: foo" ∧
    strContains "Unknown framework: foo" "dspy" = false ∧
    strContains "Unknown framework: foo" "opik" = false :=
  ⟨rfl, by decide, by decide⟩

/-- Witness for C7: concrete unknown framework, valid pair, and the listed
alternatives of the unknown-type message. -/
theorem C7_witness :
    validate_optimizer "foo" "bootstrap_fewshot" =
      .error ("Unknown framework: " ++ "foo") ∧
    validate_optimizer "dspy" "copro" = .ok () ∧
    (∀ a ∈ dspy_optimizer_types,
      strContains ("Optimizer " ++ pyStrRepr "metaprompt" ++
        " not available in " ++ "dspy" ++ ". Available: " ++
        pyListRepr dspy_optimizer_types) a = true) :=
  ⟨((C7_validation "foo" "bootstrap_fewshot").1 rfl).1,
   (C7_validation "dspy" "copro").2.2.1 dspy_optimizer_types rfl (by decide),
   ((C7_validation "dspy" "metaprompt").2.1 dspy_optimizer_types rfl
     (by decide)).2.2⟩

/-! ## Claim C8: metric functions -/

/-- Helper: a Python `[:n]` slice has length at most `n`. -/
theorem take_length_le (s : String) (n : Nat) : (s.take n).length ≤ n := by
  show (s.take n).data.length ≤ n
  rw [String.data_take]
  simp [List.length_take]

/-- Claim C8: on a verdict mismatch the feedback metric scores 0 and its
feedback embeds the expected verdict, the actual verdict, the quoted input
preview truncated to at most 100 characters followed by an ellipsis, and the
ground-truth reasoning; on a match it scores 1 with a short positive note. -/
theorem C8_feedback_metric (expected actual input_text reasoning : String)
    (hne : expected ≠ actual) :
    (metric_with_feedback expected actual input_text reasoning).1 = 0 ∧
    strContains (metric_with_feedback expected actual input_text reasoning).2
      expected = true ∧
    strContains (metric_with_feedback expected actual input_text reasoning).2
      actual = true ∧
    strContains (metric_with_feedback expected actual input_text reasoning).2
      (apos ++ input_text.take 100 ++ "..." ++ apos) = true ∧
    (input_text.take 100).length ≤ 100 ∧
    strContains (metric_with_feedback expected actual input_text reasoning).2
      reasoning = true ∧
    metric_with_feedback expected expected input_text reasoning =
      (1, "Correct verdict") := by
  have hfb : metric_with_feedback expected actual input_text reasoning =
      (0, "Expected " ++ expected ++ " but got " ++ actual ++ ". Input: " ++
        apos ++ input_text.take 100 ++ "..." ++ apos ++
        " Ground truth reasoning: " ++ reasoning) := by
    unfold metric_with_feedback
    rw [if_neg hne]
  refine ⟨by rw [hfb], ?_, ?_, ?_, take_length_le input_text 100, ?_, ?_⟩
  · rw [hfb]
    exact strContains_intro _ _ ("Expected ".data)
      ((" but got " ++ actual ++ ". Input: " ++ apos ++ input_text.take 100 ++
        "..." ++ apos ++ " Ground truth reasoning: " ++ reasoning).data)
      (by simp [str_data_append, List.append_assoc])
  · rw [hfb]
    exact strContains_intro _ _ (("Expected " ++ expected ++ " but got ").data)
      ((". Input: " ++ apos ++ input_text.take 100 ++ "..." ++ apos ++
        " Ground truth reasoning: " ++ reasoning).data)
      (by simp [str_data_append, List.append_assoc])
  · rw [hfb]
    exact strContains_intro _ _
      (("Expected " ++ expected ++ " but got " ++ actual ++ ". Input: ").data)
      ((" Ground truth reasoning: " ++ reasoning).data)
      (by simp [str_data_append, List.append_assoc])
  · rw [hfb]
    exact strContains_intro _ _
      (("Expected " ++ expected ++ " but got " ++ actual ++ ". Input: " ++
        apos ++ input_text.take 100 ++ "..." ++ apos ++
        " Ground truth reasoning: ").data) []
      (by simp [str_data_append, List.append_assoc])
  · unfold metric_with_feedback
    rw [if_pos rfl]

/-- Witness for C8: a concrete PASS/FAIL mismatch. -/
theorem C8_witness :
    (metric_with_feedback "PASS" "FAIL" "hello there" "greeting").1 = 0 ∧
    strContains (metric_with_feedback "PASS" "FAIL" "hello there" "greeting").2
      "PASS" = true ∧
    strContains (metric_with_feedback "PASS" "FAIL" "hello there" "greeting").2
      "FAIL" = true ∧
    metric_with_feedback "PASS" "PASS" "hello there" "greeting" =
      (1, "Correct verdict") := by
  have h := C8_feedback_metric "PASS" "FAIL" "hello there" "greeting"
    (by decide)
  exact ⟨h.1, h.2.1, h.2.2.1, h.2.2.2.2.2.2⟩

/-! ## Claim C1: extraction tie-break -/

/-- Helper: the marker substring `Updated instructions` occurs in the Python
repr of any note list headed by the instructions note. -/
theorem updated_marker (rest : String) :
    strContains (pyListRepr ["Updated instructions from optimizer", rest])
      "Updated instructions" = true := by
  have hpre : strContains ("[" ++ apos ++ "Updated instructions from optimizer")
      "Updated instructions" = true := by decide
  have hdata : (pyListRepr ["Updated instructions from optimizer", rest]).data =
      ("[" ++ apos ++ "Updated instructions from optimizer").data ++
        (apos ++ ", " ++ pyStrRepr rest ++ "]").data := by
    simp [pyListRepr, pyListReprAux, pyStrRepr, str_data_append,
      List.append_assoc]
  show hasSubChars (pyListRepr ["Updated instructions from optimizer", rest]).data
    ("Updated instructions" : String).data = true
  rw [hdata]
  exact hasSubChars_append_right _ _ _ hpre

/-- Claim C1 (amended): when the optimized module exposes both non-empty
instructions and non-empty demos, the extracted prompt is the instructions
text followed by the formatted Examples section — the instructions replace
the original prompt, but the demo blocks ARE appended after them — and the
notes record both the instruction update and the demo count. -/
theorem C1_extraction_tiebreak (name s original : String) (demos : List Demo)
    (hs : s ≠ "") (hd : demos ≠ []) :
    extract_optimized_prompt name (some s) demos original =
      (String.intercalate "\n" (s :: demoSection demos),
       String.intercalate "; " ["Updated instructions from optimizer",
         "Added " ++ toString demos.length ++ " fewshot examples"]) := by
  have hde : demos.isEmpty = false := by
    cases demos with
    | nil => exact absurd rfl hd
    | cons d ds => rfl
  have hcond : strContains
      (pyListRepr ["Updated instructions from optimizer",
        "Added " ++ toString demos.length ++ " fewshot examples"])
      "Updated instructions" = true := updated_marker _
  unfold extract_optimized_prompt
  dsimp only
  rw [if_neg hs]
  simp [hde, hcond]

/-- Counterexample for C1 as frozen: with both instructions and demos present
the returned prompt is not the instructions text alone — the formatted
example blocks are appended to it. -/
theorem C1_counterexample :
    ((extract_optimized_prompt "bootstrap_fewshot" (some "NEW INSTRUCTIONS")
        [demoA] "ORIGINAL PROMPT").1 ≠ "NEW INSTRUCTIONS") ∧
    strContains (extract_optimized_prompt "bootstrap_fewshot"
        (some "NEW INSTRUCTIONS") [demoA] "ORIGINAL PROMPT").1
      "## Examples:" = true := by
  constructor
  · decide
  · decide

/-- Witness for C1 (amended): concrete instructions and a single demo. -/
theorem C1_witness :
    extract_optimized_prompt "bootstrap_fewshot" (some "NEW INSTRUCTIONS")
        [demoA] "ORIGINAL PROMPT" =
      (String.intercalate "\n" ("NEW INSTRUCTIONS" :: demoSection [demoA]),
       String.intercalate "; " ["Updated instructions from optimizer",
         "Added " ++ toString ([demoA].length) ++ " fewshot examples"]) :=
  C1_extraction_tiebreak "bootstrap_fewshot" "NEW INSTRUCTIONS"
    "ORIGINAL PROMPT" [demoA] (by decide) (by decide)

/-! ## Claim C4: judge batch evaluation -/

/-- Claim C4 (amended): the judge evaluates all cases concurrently and the
returned result list is the input-order map of the per-case evaluation; but
no concurrency ceiling exists — the number of simultaneous in-flight LLM
requests equals the number of input cases and therefore exceeds every fixed
bound on large enough inputs. -/
theorem C4_batch_order_and_fanout (evaluate_single : TestCase → EvaluationResult)
    (cases : List TestCase) :
    LLMJudge.evaluate_batch evaluate_single cases = cases.map evaluate_single ∧
    (LLMJudge.evaluate_batch evaluate_single cases).length = cases.length ∧
    LLMJudge.batch_in_flight cases = cases.length ∧
    (∀ B : Nat, ∃ cs : List TestCase, B < LLMJudge.batch_in_flight cs) := by
  refine ⟨rfl, by simp [LLMJudge.evaluate_batch], rfl, ?_⟩
  intro B
  exact ⟨List.replicate (B + 1) (sampleCase 0),
    by simp [LLMJudge.batch_in_flight]⟩

/-- Counterexample for C4 as frozen: with eleven cases the number of
simultaneous in-flight requests is eleven, above the claimed ceiling of
ten. -/
theorem C4_counterexample :
    LLMJudge.batch_in_flight elevenCases = 11 ∧
    ¬ (LLMJudge.batch_in_flight elevenCases ≤ 10) := by
  constructor
  · decide
  · decide
